import Mathlib

/-!
Shallow embedding of `src/numba/dppy/initialize.py`.

The file under verification is registration glue: it defines `init_jit`
(a lazy factory resolving the dppy dispatcher class), `initialize_all`
(registers `init_jit` under key "dppy" in the host dispatcher registry and
force-loads two native libraries), and `_initialize_ufunc` /
`_initialize_gufunc` (register lazy vectorizer factories under key "dppy"
in the Vectorize / GUVectorize target registries).

We model the observable state as a `World`: the three externally owned
`ondemand` mappings (association lists keyed by target name), the list of
natively loaded libraries, the trace of load calls, and the set of Python
modules imported so far.  An `Env` says which module imports and which
native library loads succeed.  Python exceptions are modelled with
`Except`: a failing step returns the error together with the world as it
stands at that point (side effects performed before the raise persist,
exactly as in Python).
-/

/-- The Python classes that the lazy factories of initialize.py resolve. -/
inductive PyType
  | DPPyDispatcher
  | OclVectorize
  | OclGUFuncVectorize
deriving DecidableEq

/-- The zero-argument factory callbacks that initialize.py stores into the
`ondemand` mappings: module-level `init_jit`, and the closures
`init_vectorize` / `init_guvectorize`. -/
inductive Factory
  | init_jit
  | init_vectorize
  | init_guvectorize
deriving DecidableEq

/-- The failures the modelled operations can raise: an OSError from
`ll.load_library_permanently`, or an ImportError from a module import. -/
inductive PyError
  | OSError (lib : String)
  | ImportError (modname : String)
deriving DecidableEq

/-- An `ondemand` mapping: target-name string to registered factory.
Python dict assignment `d[k] = v` is modelled by `setKey`. -/
abbrev Registry := List (String × Factory)

/-- Removal of every binding of a key, used to state overwriting. -/
def delKey : Registry → String → Registry
  | [], _ => []
  | (k', v) :: r, k => if k' = k then delKey r k else (k', v) :: delKey r k

/-- Python `d[k] = v`: the key `k` now maps to `v`; every other key keeps
its value (no duplicate-key error is possible). -/
def setKey (r : Registry) (k : String) (v : Factory) : Registry :=
  (k, v) :: delKey r k

/-- Python `d.get(k)`: the value registered under `k`, if any. -/
def getKey : Registry → String → Option Factory
  | [], _ => none
  | (k', v) :: r, k => if k = k' then some v else getKey r k

/-- The observable state touched by initialize.py: the three external
registries' `ondemand` mappings, the libraries loaded into the process,
the trace of `load_library_permanently` calls, and the imported modules. -/
structure World where
  dispatcher_registry : Registry
  vectorize_registry : Registry
  guvectorize_registry : Registry
  loaded_libs : List String
  load_calls : List String
  imported_modules : List String
deriving DecidableEq

/-- The environment: which Python modules can be imported and which native
libraries `ll.load_library_permanently` can load. -/
structure Env where
  import_ok : String → Bool
  lib_ok : String → Bool

/-- A Python `import m`: a no-op if `m` is already imported, otherwise it
either records the module as imported or raises ImportError. -/
def pyImport (env : Env) (m : String) (w : World) :
    Except PyError Unit × World :=
  if w.imported_modules.contains m then (Except.ok (), w)
  else if env.import_ok m then
    (Except.ok (), { w with imported_modules := w.imported_modules ++ [m] })
  else (Except.error (PyError.ImportError m), w)

/-- `ll.load_library_permanently(name)`: the call is always recorded in the
trace; on success the library joins the process's resident libraries, on
failure an OSError is raised. -/
def load_library_permanently (env : Env) (name : String) (w : World) :
    Except PyError Unit × World :=
  if env.lib_ok name then
    (Except.ok (),
      { w with loaded_libs := w.loaded_libs ++ [name],
               load_calls := w.load_calls ++ [name] })
  else
    (Except.error (PyError.OSError name),
      { w with load_calls := w.load_calls ++ [name] })

/-- The module each factory imports when invoked (initialize.py lines 8,
22, 32). -/
def factoryModule : Factory → String
  | Factory.init_jit => "numba.dppy.dispatcher"
  | Factory.init_vectorize => "numba.dppy.vectorizers"
  | Factory.init_guvectorize => "numba.dppy.vectorizers"

/-- The class each factory returns once its import resolves
(initialize.py lines 9, 24, 34). -/
def factoryReturn : Factory → PyType
  | Factory.init_jit => PyType.DPPyDispatcher
  | Factory.init_vectorize => PyType.OclVectorize
  | Factory.init_guvectorize => PyType.OclGUFuncVectorize

/-- Invoking a registered factory: `def init_jit()` does
`from numba.dppy.dispatcher import DPPyDispatcher; return DPPyDispatcher`,
and likewise the two vectorizer closures.  The body performs exactly one
deferred import and returns the resolved class; a failure of that import
propagates unmodified. -/
def callFactory (env : Env) (f : Factory) (w : World) :
    Except PyError PyType × World :=
  match pyImport env (factoryModule f) w with
  | (Except.ok _, w1) => (Except.ok (factoryReturn f), w1)
  | (Except.error e, w1) => (Except.error e, w1)

/-- initialize.py lines 11-16:
`from numba.targets.registry import dispatcher_registry;
dispatcher_registry.ondemand['dppy'] = init_jit;
ll.load_library_permanently('libdpglue.so');
ll.load_library_permanently('libOpenCL.so')`. -/
def initialize_all (env : Env) (w : World) : Except PyError Unit × World :=
  match pyImport env "numba.targets.registry" w with
  | (Except.error e, w1) => (Except.error e, w1)
  | (Except.ok _, w1) =>
    let w2 := { w1 with
      dispatcher_registry := setKey w1.dispatcher_registry "dppy" Factory.init_jit }
    match load_library_permanently env "libdpglue.so" w2 with
    | (Except.error e, w3) => (Except.error e, w3)
    | (Except.ok _, w3) => load_library_permanently env "libOpenCL.so" w3

/-- initialize.py lines 18-26: `from numba.npyufunc import Vectorize;
Vectorize.target_registry.ondemand['dppy'] = init_vectorize`. -/
def _initialize_ufunc (env : Env) (w : World) : Except PyError Unit × World :=
  match pyImport env "numba.npyufunc" w with
  | (Except.error e, w1) => (Except.error e, w1)
  | (Except.ok _, w1) =>
    (Except.ok (), { w1 with
      vectorize_registry := setKey w1.vectorize_registry "dppy" Factory.init_vectorize })

/-- initialize.py lines 28-36: `from numba.npyufunc import GUVectorize;
GUVectorize.target_registry.ondemand['dppy'] = init_guvectorize`. -/
def _initialize_gufunc (env : Env) (w : World) : Except PyError Unit × World :=
  match pyImport env "numba.npyufunc" w with
  | (Except.error e, w1) => (Except.error e, w1)
  | (Except.ok _, w1) =>
    (Except.ok (), { w1 with
      guvectorize_registry := setKey w1.guvectorize_registry "dppy" Factory.init_guvectorize })

/-- Evaluating initialize.py's top level (lines 1-4): only the module-level
imports run; the function definitions bind names and have no side effect. -/
def module_toplevel (env : Env) (w : World) : Except PyError Unit × World :=
  match pyImport env "llvmlite.binding" w with
  | (Except.error e, w1) => (Except.error e, w1)
  | (Except.ok _, w1) =>
    match pyImport env "os" w1 with
    | (Except.error e, w2) => (Except.error e, w2)
    | (Except.ok _, w2) => pyImport env "distutils.sysconfig" w2

/-- A fresh process: nothing registered, loaded or imported. -/
def emptyWorld : World :=
  { dispatcher_registry := [], vectorize_registry := [],
    guvectorize_registry := [], loaded_libs := [], load_calls := [],
    imported_modules := [] }

/-- An environment where every import and every library load succeeds. -/
def envAllOk : Env := { import_ok := fun _ => true, lib_ok := fun _ => true }

/-- An environment where imports succeed but no native library can be
loaded (the named .so files are absent). -/
def envNoLibs : Env := { import_ok := fun _ => true, lib_ok := fun _ => false }

/-- An environment where only the dppy backend modules fail to import. -/
def envNoDppy : Env :=
  { import_ok := fun m =>
      !(m == "numba.dppy.dispatcher" || m == "numba.dppy.vectorizers"),
    lib_ok := fun _ => true }

/-! ## Registry lemmas -/

/-- Looking up a key other than the deleted one is unaffected. -/
theorem getKey_delKey_ne (r : Registry) (k k' : String) (h : k' ≠ k) :
    getKey (delKey r k) k' = getKey r k' := by
  induction r with
  | nil => rfl
  | cons p r ih =>
    obtain ⟨a, v⟩ := p
    by_cases ha : a = k
    · subst ha
      simp [delKey, getKey, ih, fun hh => h (hh : k' = a)]
    · simp only [delKey, ha, if_false]
      by_cases hb : k' = a
      · simp [getKey, hb]
      · simp [getKey, hb, ih]

/-- Deleting a key twice is the same as deleting it once. -/
theorem delKey_delKey (r : Registry) (k : String) :
    delKey (delKey r k) k = delKey r k := by
  induction r with
  | nil => rfl
  | cons p r ih =>
    obtain ⟨a, v⟩ := p
    by_cases ha : a = k
    · simp [delKey, ha, ih]
    · simp [delKey, ha, ih]

/-- The key just assigned is found, with the assigned value. -/
theorem getKey_setKey_self (r : Registry) (k : String) (v : Factory) :
    getKey (setKey r k v) k = some v := by
  simp [setKey, getKey]

/-- Assigning one key leaves every other key's value unchanged. -/
theorem getKey_setKey_ne (r : Registry) (k k' : String) (v : Factory)
    (h : k' ≠ k) : getKey (setKey r k v) k' = getKey r k' := by
  simp [setKey, getKey, h, getKey_delKey_ne r k k' h]

/-- Re-assigning the same value to the same key changes nothing. -/
theorem setKey_setKey (r : Registry) (k : String) (v : Factory) :
    setKey (setKey r k v) k v = setKey r k v := by
  simp [setKey, delKey, delKey_delKey]

/-! ## State-effect helper lemmas -/

/-- A module import touches no registry, no loaded library and no load
trace: only the imported-modules list. -/
theorem pyImport_frame (env : Env) (m : String) (w : World) :
    (pyImport env m w).2.dispatcher_registry = w.dispatcher_registry ∧
    (pyImport env m w).2.vectorize_registry = w.vectorize_registry ∧
    (pyImport env m w).2.guvectorize_registry = w.guvectorize_registry ∧
    (pyImport env m w).2.loaded_libs = w.loaded_libs ∧
    (pyImport env m w).2.load_calls = w.load_calls := by
  unfold pyImport; split_ifs <;> simp

/-- A library load touches no registry and no imported-modules list. -/
theorem load_frame (env : Env) (name : String) (w : World) :
    (load_library_permanently env name w).2.dispatcher_registry = w.dispatcher_registry ∧
    (load_library_permanently env name w).2.vectorize_registry = w.vectorize_registry ∧
    (load_library_permanently env name w).2.guvectorize_registry = w.guvectorize_registry ∧
    (load_library_permanently env name w).2.imported_modules = w.imported_modules := by
  unfold load_library_permanently; split_ifs <;> simp

/-- Importing module `m` adds at most `m` to the imported-modules list:
membership of any other module is unchanged. -/
theorem pyImport_mem_ne (env : Env) (m m' : String) (w : World) (h : m' ≠ m) :
    (m' ∈ (pyImport env m w).2.imported_modules ↔ m' ∈ w.imported_modules) := by
  unfold pyImport; split_ifs <;> simp [h]

/-- A successful import leaves the module present in the imported list. -/
theorem pyImport_mem_self (env : Env) (m : String) (w : World)
    (h : (pyImport env m w).1 = Except.ok ()) :
    m ∈ (pyImport env m w).2.imported_modules := by
  unfold pyImport at *
  split_ifs at * with h1 h2 <;> simp_all [List.elem_iff]

/-- When an import fails, the world is returned untouched. -/
theorem pyImport_error_world (env : Env) (m : String) (w : World) (e : PyError)
    (h : (pyImport env m w).1 = Except.error e) :
    (pyImport env m w).2 = w := by
  unfold pyImport at *
  split_ifs at *
  all_goals simp_all

/-- An import succeeds iff the module is already present or importable. -/
theorem pyImport_ok_iff (env : Env) (m : String) (w : World) :
    (pyImport env m w).1 = Except.ok () ↔
      (m ∈ w.imported_modules ∨ env.import_ok m = true) := by
  unfold pyImport
  split_ifs with h1 h2 <;> simp_all [List.elem_iff]

/-- Invoking a factory succeeds and returns its class whenever its module
is importable. -/
theorem callFactory_ok (env : Env) (f : Factory) (w : World)
    (h : env.import_ok (factoryModule f) = true) :
    (callFactory env f w).1 = Except.ok (factoryReturn f) := by
  unfold callFactory pyImport
  split_ifs <;> simp_all

/-- As long as the registry-module import succeeds, `initialize_all`
stores `init_jit` under "dppy" whether or not the later loads succeed. -/
theorem initialize_all_dispatcher (env : Env) (w : World)
    (himp : (pyImport env "numba.targets.registry" w).1 = Except.ok ()) :
    (initialize_all env w).2.dispatcher_registry =
      setKey w.dispatcher_registry "dppy" Factory.init_jit := by
  by_cases c1 : "numba.targets.registry" ∈ w.imported_modules <;>
  by_cases c2 : env.import_ok "numba.targets.registry" = true <;>
  by_cases c3 : env.lib_ok "libdpglue.so" = true <;>
  by_cases c4 : env.lib_ok "libOpenCL.so" = true <;>
    simp_all [initialize_all, pyImport, load_library_permanently]

/-- Key assignment, seen through lookup: the assigned key reads back the
new value, every other key reads back as before. -/
theorem getKey_setKey (r : Registry) (k k' : String) (v : Factory) :
    getKey (setKey r k v) k' = if k' = k then some v else getKey r k' := by
  by_cases h : k' = k
  · subst h; simp [getKey_setKey_self]
  · simp [h, getKey_setKey_ne r k k' v h]

/-- Invoking a factory leaves exactly the world its single import leaves. -/
theorem callFactory_world (env : Env) (f : Factory) (w : World) :
    (callFactory env f w).2 = (pyImport env (factoryModule f) w).2 := by
  unfold callFactory
  rcases hp : pyImport env (factoryModule f) w with ⟨r, w1⟩
  cases r <;> simp

/-- `_initialize_ufunc`, when it succeeds, sets the Vectorize registry's
"dppy" entry to the `init_vectorize` closure. -/
theorem ufunc_state (env : Env) (w : World)
    (hok : (_initialize_ufunc env w).1 = Except.ok ()) :
    (_initialize_ufunc env w).2.vectorize_registry =
      setKey w.vectorize_registry "dppy" Factory.init_vectorize := by
  by_cases c1 : "numba.npyufunc" ∈ w.imported_modules <;>
  by_cases c2 : env.import_ok "numba.npyufunc" = true <;>
    simp_all [_initialize_ufunc, pyImport]

/-- `_initialize_gufunc`, when it succeeds, sets the GUVectorize registry's
"dppy" entry to the `init_guvectorize` closure. -/
theorem gufunc_state (env : Env) (w : World)
    (hok : (_initialize_gufunc env w).1 = Except.ok ()) :
    (_initialize_gufunc env w).2.guvectorize_registry =
      setKey w.guvectorize_registry "dppy" Factory.init_guvectorize := by
  by_cases c1 : "numba.npyufunc" ∈ w.imported_modules <;>
  by_cases c2 : env.import_ok "numba.npyufunc" = true <;>
    simp_all [_initialize_gufunc, pyImport]

/-- `initialize_all` succeeds exactly when the registry module resolves
and both named libraries load. -/
theorem initialize_all_ok_iff (env : Env) (w : World) :
    (initialize_all env w).1 = Except.ok () ↔
      ("numba.targets.registry" ∈ w.imported_modules ∨
        env.import_ok "numba.targets.registry" = true) ∧
      env.lib_ok "libdpglue.so" = true ∧ env.lib_ok "libOpenCL.so" = true := by
  by_cases c1 : "numba.targets.registry" ∈ w.imported_modules <;>
  by_cases c2 : env.import_ok "numba.targets.registry" = true <;>
  by_cases c3 : env.lib_ok "libdpglue.so" = true <;>
  by_cases c4 : env.lib_ok "libOpenCL.so" = true <;>
    simp_all [initialize_all, pyImport, load_library_permanently]

/-! ## The claims -/

/-- C1 counterexample: with the two .so files absent (and every module
importable), `initialize_all` raises the load failure, yet the dispatcher
registry is NOT unchanged: the failed invocation has already registered
the "dppy" entry.  This refutes "the registry is unchanged when the load
step fails". -/
theorem initialize_all_failed_load_cex :
    (initialize_all envNoLibs emptyWorld).1 =
        Except.error (PyError.OSError "libdpglue.so") ∧
    (initialize_all envNoLibs emptyWorld).2.dispatcher_registry ≠
        emptyWorld.dispatcher_registry ∧
    getKey (initialize_all envNoLibs emptyWorld).2.dispatcher_registry "dppy" =
        some Factory.init_jit :=
  ⟨rfl, by decide, rfl⟩

/-- C1 (amended): when a named native library cannot be loaded,
`initialize_all` raises the load failure (an OSError for one of the two
named libraries), but the dispatcher registration is not rolled back: the
"dppy" entry is left registered by the failed invocation, because the
registration precedes the loads. -/
theorem initialize_all_load_failure_keeps_registration (env : Env) (w : World)
    (himp : (pyImport env "numba.targets.registry" w).1 = Except.ok ())
    (hfail : env.lib_ok "libdpglue.so" = false ∨ env.lib_ok "libOpenCL.so" = false) :
    (∃ name, (initialize_all env w).1 = Except.error (PyError.OSError name) ∧
      (name = "libdpglue.so" ∨ name = "libOpenCL.so")) ∧
    getKey (initialize_all env w).2.dispatcher_registry "dppy" =
      some Factory.init_jit := by
  refine ⟨?_, by rw [initialize_all_dispatcher env w himp, getKey_setKey_self]⟩
  rw [pyImport_ok_iff] at himp
  by_cases c1 : "numba.targets.registry" ∈ w.imported_modules <;>
  by_cases c2 : env.import_ok "numba.targets.registry" = true <;>
  by_cases c3 : env.lib_ok "libdpglue.so" = true <;>
  by_cases c4 : env.lib_ok "libOpenCL.so" = true <;>
    simp_all [initialize_all, pyImport, load_library_permanently]

/-- C1 witness: the amended statement at the concrete no-libraries
environment and an empty world. -/
theorem initialize_all_load_failure_keeps_registration_witness :
    (∃ name, (initialize_all envNoLibs emptyWorld).1 =
        Except.error (PyError.OSError name) ∧
      (name = "libdpglue.so" ∨ name = "libOpenCL.so")) ∧
    getKey (initialize_all envNoLibs emptyWorld).2.dispatcher_registry "dppy" =
      some Factory.init_jit :=
  initialize_all_load_failure_keeps_registration envNoLibs emptyWorld rfl
    (Or.inl rfl)

/-- C2: after a successful `initialize_all`, the dispatcher registry's
ondemand mapping binds "dppy" to `init_jit`, and invoking that entry
returns the `DPPyDispatcher` type. -/
theorem initialize_all_registers_init_jit (env : Env) (w : World)
    (hok : (initialize_all env w).1 = Except.ok ())
    (hd : env.import_ok "numba.dppy.dispatcher" = true) :
    getKey (initialize_all env w).2.dispatcher_registry "dppy" =
      some Factory.init_jit ∧
    (callFactory env Factory.init_jit (initialize_all env w).2).1 =
      Except.ok PyType.DPPyDispatcher := by
  have himp : (pyImport env "numba.targets.registry" w).1 = Except.ok () := by
    rw [pyImport_ok_iff]
    exact ((initialize_all_ok_iff env w).1 hok).1
  refine ⟨by rw [initialize_all_dispatcher env w himp, getKey_setKey_self], ?_⟩
  exact callFactory_ok env Factory.init_jit _ hd

/-- C2 witness: the statement at the all-succeeding environment and an
empty world. -/
theorem initialize_all_registers_init_jit_witness :
    getKey (initialize_all envAllOk emptyWorld).2.dispatcher_registry "dppy" =
      some Factory.init_jit ∧
    (callFactory envAllOk Factory.init_jit (initialize_all envAllOk emptyWorld).2).1 =
      Except.ok PyType.DPPyDispatcher :=
  initialize_all_registers_init_jit envAllOk emptyWorld rfl rfl

/-- C3: a successful `initialize_all` calls the permanent loader exactly
twice, with the literal names "libdpglue.so" then "libOpenCL.so" and no
other names, and exactly those two libraries join the process's resident
(global-namespace) libraries. -/
theorem initialize_all_loads_two_libs (env : Env) (w : World)
    (hok : (initialize_all env w).1 = Except.ok ()) :
    (initialize_all env w).2.load_calls =
      w.load_calls ++ ["libdpglue.so", "libOpenCL.so"] ∧
    (initialize_all env w).2.loaded_libs =
      w.loaded_libs ++ ["libdpglue.so", "libOpenCL.so"] := by
  by_cases c1 : "numba.targets.registry" ∈ w.imported_modules <;>
  by_cases c2 : env.import_ok "numba.targets.registry" = true <;>
  by_cases c3 : env.lib_ok "libdpglue.so" = true <;>
  by_cases c4 : env.lib_ok "libOpenCL.so" = true <;>
    simp_all [initialize_all, pyImport, load_library_permanently]

/-- C3 witness: the statement at the all-succeeding environment and an
empty world. -/
theorem initialize_all_loads_two_libs_witness :
    (initialize_all envAllOk emptyWorld).2.load_calls =
      emptyWorld.load_calls ++ ["libdpglue.so", "libOpenCL.so"] ∧
    (initialize_all envAllOk emptyWorld).2.loaded_libs =
      emptyWorld.loaded_libs ++ ["libdpglue.so", "libOpenCL.so"] :=
  initialize_all_loads_two_libs envAllOk emptyWorld rfl

/-- C4: after `_initialize_ufunc`, the Vectorize target registry maps
"dppy" to a factory returning `OclVectorize`; after `_initialize_gufunc`,
the GUVectorize target registry maps "dppy" to a factory returning
`OclGUFuncVectorize`. -/
theorem vectorize_registries_map_dppy (env : Env) (w w' : World)
    (hu : (_initialize_ufunc env w).1 = Except.ok ())
    (hg : (_initialize_gufunc env w').1 = Except.ok ())
    (hv : env.import_ok "numba.dppy.vectorizers" = true) :
    (∃ f, getKey (_initialize_ufunc env w).2.vectorize_registry "dppy" = some f ∧
      (callFactory env f (_initialize_ufunc env w).2).1 =
        Except.ok PyType.OclVectorize) ∧
    (∃ f, getKey (_initialize_gufunc env w').2.guvectorize_registry "dppy" = some f ∧
      (callFactory env f (_initialize_gufunc env w').2).1 =
        Except.ok PyType.OclGUFuncVectorize) := by
  refine ⟨⟨Factory.init_vectorize, ?_, ?_⟩, ⟨Factory.init_guvectorize, ?_, ?_⟩⟩
  · rw [ufunc_state env w hu, getKey_setKey_self]
  · exact callFactory_ok env Factory.init_vectorize _ hv
  · rw [gufunc_state env w' hg, getKey_setKey_self]
  · exact callFactory_ok env Factory.init_guvectorize _ hv

/-- C4 witness: the statement at the all-succeeding environment and empty
worlds. -/
theorem vectorize_registries_map_dppy_witness :
    (∃ f, getKey (_initialize_ufunc envAllOk emptyWorld).2.vectorize_registry "dppy" =
        some f ∧
      (callFactory envAllOk f (_initialize_ufunc envAllOk emptyWorld).2).1 =
        Except.ok PyType.OclVectorize) ∧
    (∃ f, getKey (_initialize_gufunc envAllOk emptyWorld).2.guvectorize_registry "dppy" =
        some f ∧
      (callFactory envAllOk f (_initialize_gufunc envAllOk emptyWorld).2).1 =
        Except.ok PyType.OclGUFuncVectorize) :=
  vectorize_registries_map_dppy envAllOk emptyWorld emptyWorld rfl rfl rfl

/-- C8: when the deferred import inside a factory fails, invoking the
factory raises exactly the underlying ImportError, unmodified, and leaves
the world untouched (nothing is caught, substituted, retried, validated
or recovered). -/
theorem factory_error_propagates (env : Env) (f : Factory) (w : World)
    (e : PyError)
    (h : (pyImport env (factoryModule f) w).1 = Except.error e) :
    (callFactory env f w).1 = Except.error e ∧
    (callFactory env f w).2 = w ∧
    e = PyError.ImportError (factoryModule f) := by
  have hw := pyImport_error_world env (factoryModule f) w e h
  have hcw := callFactory_world env f w
  refine ⟨?_, hcw.trans hw, ?_⟩
  · unfold callFactory
    rcases hp : pyImport env (factoryModule f) w with ⟨r, w1⟩
    rw [hp] at h
    cases r <;> simp_all
  · unfold pyImport at h
    split_ifs at h <;> simp_all

/-- C8 witness: invoking `init_jit` when the dppy dispatcher module is
absent raises exactly its ImportError and changes nothing. -/
theorem factory_error_propagates_witness :
    (callFactory envNoDppy Factory.init_jit emptyWorld).1 =
        Except.error (PyError.ImportError "numba.dppy.dispatcher") ∧
    (callFactory envNoDppy Factory.init_jit emptyWorld).2 = emptyWorld ∧
    PyError.ImportError "numba.dppy.dispatcher" =
        PyError.ImportError (factoryModule Factory.init_jit) :=
  factory_error_propagates envNoDppy Factory.init_jit emptyWorld
    (PyError.ImportError "numba.dppy.dispatcher") rfl

/-- C9: inside one invocation of `initialize_all` the steps are ordered:
the "dppy" dispatcher registration precedes any load, and "libdpglue.so"
is attempted before "libOpenCL.so".  Hence if loading "libdpglue.so"
fails, the call raises that OSError, "libOpenCL.so" is never attempted
(the load trace grows by exactly ["libdpglue.so"], nothing joined the
resident libraries), while the "dppy" registration has already taken
effect. -/
theorem initialize_all_step_order (env : Env) (w : World)
    (himp : (pyImport env "numba.targets.registry" w).1 = Except.ok ())
    (hfail : env.lib_ok "libdpglue.so" = false) :
    (initialize_all env w).1 = Except.error (PyError.OSError "libdpglue.so") ∧
    (initialize_all env w).2.load_calls = w.load_calls ++ ["libdpglue.so"] ∧
    (initialize_all env w).2.loaded_libs = w.loaded_libs ∧
    getKey (initialize_all env w).2.dispatcher_registry "dppy" =
      some Factory.init_jit := by
  refine ⟨?_, ?_, ?_, by rw [initialize_all_dispatcher env w himp, getKey_setKey_self]⟩
  all_goals
    rw [pyImport_ok_iff] at himp
    by_cases c1 : "numba.targets.registry" ∈ w.imported_modules <;>
    by_cases c2 : env.import_ok "numba.targets.registry" = true <;>
      simp_all [initialize_all, pyImport, load_library_permanently]

/-- C9 witness: the statement at the concrete no-libraries environment
and an empty world. -/
theorem initialize_all_step_order_witness :
    (initialize_all envNoLibs emptyWorld).1 =
        Except.error (PyError.OSError "libdpglue.so") ∧
    (initialize_all envNoLibs emptyWorld).2.load_calls =
        emptyWorld.load_calls ++ ["libdpglue.so"] ∧
    (initialize_all envNoLibs emptyWorld).2.loaded_libs =
        emptyWorld.loaded_libs ∧
    getKey (initialize_all envNoLibs emptyWorld).2.dispatcher_registry "dppy" =
        some Factory.init_jit :=
  initialize_all_step_order envNoLibs emptyWorld rfl rfl

/-- `initialize_all` performs exactly one import, of the registry module:
its imported-modules list is the one that import leaves. -/
theorem initialize_all_imports (env : Env) (w : World) :
    (initialize_all env w).2.imported_modules =
      (pyImport env "numba.targets.registry" w).2.imported_modules := by
  by_cases c1 : "numba.targets.registry" ∈ w.imported_modules <;>
  by_cases c2 : env.import_ok "numba.targets.registry" = true <;>
  by_cases c3 : env.lib_ok "libdpglue.so" = true <;>
  by_cases c4 : env.lib_ok "libOpenCL.so" = true <;>
    simp_all [initialize_all, pyImport, load_library_permanently]

/-- `_initialize_ufunc` performs exactly one import, of `numba.npyufunc`. -/
theorem ufunc_imports (env : Env) (w : World) :
    (_initialize_ufunc env w).2.imported_modules =
      (pyImport env "numba.npyufunc" w).2.imported_modules := by
  by_cases c1 : "numba.npyufunc" ∈ w.imported_modules <;>
  by_cases c2 : env.import_ok "numba.npyufunc" = true <;>
    simp_all [_initialize_ufunc, pyImport]

/-- `_initialize_gufunc` performs exactly one import, of `numba.npyufunc`. -/
theorem gufunc_imports (env : Env) (w : World) :
    (_initialize_gufunc env w).2.imported_modules =
      (pyImport env "numba.npyufunc" w).2.imported_modules := by
  by_cases c1 : "numba.npyufunc" ∈ w.imported_modules <;>
  by_cases c2 : env.import_ok "numba.npyufunc" = true <;>
    simp_all [_initialize_gufunc, pyImport]

/-- C5: registering the "dppy" entries never resolves the dispatcher or
vectorizer modules: after `initialize_all`, `_initialize_ufunc` or
`_initialize_gufunc`, the modules `numba.dppy.dispatcher` and
`numba.dppy.vectorizers` are imported exactly iff they already were;
they are imported only when the registered factory itself is invoked. -/
theorem registration_is_lazy (env : Env) (w : World)
    (hd : env.import_ok "numba.dppy.dispatcher" = true)
    (hv : env.import_ok "numba.dppy.vectorizers" = true) :
    ("numba.dppy.dispatcher" ∈ (initialize_all env w).2.imported_modules ↔
      "numba.dppy.dispatcher" ∈ w.imported_modules) ∧
    ("numba.dppy.vectorizers" ∈ (initialize_all env w).2.imported_modules ↔
      "numba.dppy.vectorizers" ∈ w.imported_modules) ∧
    ("numba.dppy.vectorizers" ∈ (_initialize_ufunc env w).2.imported_modules ↔
      "numba.dppy.vectorizers" ∈ w.imported_modules) ∧
    ("numba.dppy.vectorizers" ∈ (_initialize_gufunc env w).2.imported_modules ↔
      "numba.dppy.vectorizers" ∈ w.imported_modules) ∧
    "numba.dppy.dispatcher" ∈
      (callFactory env Factory.init_jit w).2.imported_modules ∧
    "numba.dppy.vectorizers" ∈
      (callFactory env Factory.init_vectorize w).2.imported_modules ∧
    "numba.dppy.vectorizers" ∈
      (callFactory env Factory.init_guvectorize w).2.imported_modules := by
  refine ⟨?_, ?_, ?_, ?_, ?_, ?_, ?_⟩
  · rw [initialize_all_imports]
    exact pyImport_mem_ne env "numba.targets.registry" "numba.dppy.dispatcher" w
      (by decide)
  · rw [initialize_all_imports]
    exact pyImport_mem_ne env "numba.targets.registry" "numba.dppy.vectorizers" w
      (by decide)
  · rw [ufunc_imports]
    exact pyImport_mem_ne env "numba.npyufunc" "numba.dppy.vectorizers" w
      (by decide)
  · rw [gufunc_imports]
    exact pyImport_mem_ne env "numba.npyufunc" "numba.dppy.vectorizers" w
      (by decide)
  · rw [callFactory_world]
    exact pyImport_mem_self env "numba.dppy.dispatcher" w
      ((pyImport_ok_iff env "numba.dppy.dispatcher" w).2 (Or.inr hd))
  · rw [callFactory_world]
    exact pyImport_mem_self env "numba.dppy.vectorizers" w
      ((pyImport_ok_iff env "numba.dppy.vectorizers" w).2 (Or.inr hv))
  · rw [callFactory_world]
    exact pyImport_mem_self env "numba.dppy.vectorizers" w
      ((pyImport_ok_iff env "numba.dppy.vectorizers" w).2 (Or.inr hv))

/-- C5 witness: the statement at the all-succeeding environment and an
empty world. -/
theorem registration_is_lazy_witness :
    ("numba.dppy.dispatcher" ∈
        (initialize_all envAllOk emptyWorld).2.imported_modules ↔
      "numba.dppy.dispatcher" ∈ emptyWorld.imported_modules) ∧
    ("numba.dppy.vectorizers" ∈
        (initialize_all envAllOk emptyWorld).2.imported_modules ↔
      "numba.dppy.vectorizers" ∈ emptyWorld.imported_modules) ∧
    ("numba.dppy.vectorizers" ∈
        (_initialize_ufunc envAllOk emptyWorld).2.imported_modules ↔
      "numba.dppy.vectorizers" ∈ emptyWorld.imported_modules) ∧
    ("numba.dppy.vectorizers" ∈
        (_initialize_gufunc envAllOk emptyWorld).2.imported_modules ↔
      "numba.dppy.vectorizers" ∈ emptyWorld.imported_modules) ∧
    "numba.dppy.dispatcher" ∈
      (callFactory envAllOk Factory.init_jit emptyWorld).2.imported_modules ∧
    "numba.dppy.vectorizers" ∈
      (callFactory envAllOk Factory.init_vectorize emptyWorld).2.imported_modules ∧
    "numba.dppy.vectorizers" ∈
      (callFactory envAllOk Factory.init_guvectorize emptyWorld).2.imported_modules :=
  registration_is_lazy envAllOk emptyWorld rfl rfl

/-- C7: each operation writes only the single key "dppy" of the one
registry it targets: every other key of that registry reads back
unchanged, and the other two registries are untouched entirely. -/
theorem registration_frame (env : Env) (w : World) (k : String)
    (hk : k ≠ "dppy") :
    (initialize_all env w).2.vectorize_registry = w.vectorize_registry ∧
    (initialize_all env w).2.guvectorize_registry = w.guvectorize_registry ∧
    getKey (initialize_all env w).2.dispatcher_registry k =
      getKey w.dispatcher_registry k ∧
    (_initialize_ufunc env w).2.dispatcher_registry = w.dispatcher_registry ∧
    (_initialize_ufunc env w).2.guvectorize_registry = w.guvectorize_registry ∧
    getKey (_initialize_ufunc env w).2.vectorize_registry k =
      getKey w.vectorize_registry k ∧
    (_initialize_gufunc env w).2.dispatcher_registry = w.dispatcher_registry ∧
    (_initialize_gufunc env w).2.vectorize_registry = w.vectorize_registry ∧
    getKey (_initialize_gufunc env w).2.guvectorize_registry k =
      getKey w.guvectorize_registry k := by
  by_cases c1 : "numba.targets.registry" ∈ w.imported_modules <;>
  by_cases c2 : env.import_ok "numba.targets.registry" = true <;>
  by_cases c3 : env.lib_ok "libdpglue.so" = true <;>
  by_cases c4 : env.lib_ok "libOpenCL.so" = true <;>
  by_cases c5 : "numba.npyufunc" ∈ w.imported_modules <;>
  by_cases c6 : env.import_ok "numba.npyufunc" = true <;>
    simp_all [initialize_all, _initialize_ufunc, _initialize_gufunc, pyImport,
      load_library_permanently, getKey_setKey, hk]

/-- C7 witness: the statement at the all-succeeding environment, an empty
world and the distinct key "cuda". -/
theorem registration_frame_witness :
    (initialize_all envAllOk emptyWorld).2.vectorize_registry =
      emptyWorld.vectorize_registry ∧
    (initialize_all envAllOk emptyWorld).2.guvectorize_registry =
      emptyWorld.guvectorize_registry ∧
    getKey (initialize_all envAllOk emptyWorld).2.dispatcher_registry "cuda" =
      getKey emptyWorld.dispatcher_registry "cuda" ∧
    (_initialize_ufunc envAllOk emptyWorld).2.dispatcher_registry =
      emptyWorld.dispatcher_registry ∧
    (_initialize_ufunc envAllOk emptyWorld).2.guvectorize_registry =
      emptyWorld.guvectorize_registry ∧
    getKey (_initialize_ufunc envAllOk emptyWorld).2.vectorize_registry "cuda" =
      getKey emptyWorld.vectorize_registry "cuda" ∧
    (_initialize_gufunc envAllOk emptyWorld).2.dispatcher_registry =
      emptyWorld.dispatcher_registry ∧
    (_initialize_gufunc envAllOk emptyWorld).2.vectorize_registry =
      emptyWorld.vectorize_registry ∧
    getKey (_initialize_gufunc envAllOk emptyWorld).2.guvectorize_registry "cuda" =
      getKey emptyWorld.guvectorize_registry "cuda" :=
  registration_frame envAllOk emptyWorld "cuda" (by decide)

/-- C10: evaluating the module's top level registers nothing and loads
nothing: all three registries, the resident libraries and the load trace
are exactly as before; only the three module-level imports run. -/
theorem module_toplevel_no_effects (env : Env) (w : World) :
    (module_toplevel env w).2.dispatcher_registry = w.dispatcher_registry ∧
    (module_toplevel env w).2.vectorize_registry = w.vectorize_registry ∧
    (module_toplevel env w).2.guvectorize_registry = w.guvectorize_registry ∧
    (module_toplevel env w).2.loaded_libs = w.loaded_libs ∧
    (module_toplevel env w).2.load_calls = w.load_calls := by
  unfold module_toplevel
  rcases h1 : pyImport env "llvmlite.binding" w with ⟨r1, w1⟩
  obtain ⟨a1, b1, d1, e1, f1⟩ := pyImport_frame env "llvmlite.binding" w
  rw [h1] at a1 b1 d1 e1 f1
  cases r1 with
  | error e => exact ⟨a1, b1, d1, e1, f1⟩
  | ok u =>
    dsimp only
    rcases h2 : pyImport env "os" w1 with ⟨r2, w2⟩
    obtain ⟨a2, b2, d2, e2, f2⟩ := pyImport_frame env "os" w1
    rw [h2] at a2 b2 d2 e2 f2
    cases r2 with
    | error e =>
      exact ⟨a2.trans a1, b2.trans b1, d2.trans d1, e2.trans e1, f2.trans f1⟩
    | ok u2 =>
      dsimp only
      obtain ⟨a3, b3, d3, e3, f3⟩ := pyImport_frame env "distutils.sysconfig" w2
      exact ⟨a3.trans (a2.trans a1), b3.trans (b2.trans b1),
        d3.trans (d2.trans d1), e3.trans (e2.trans e1), f3.trans (f2.trans f1)⟩

/-- C6: invoking each registration operation twice in succession, the
first invocation succeeding, leaves every registry exactly as one
invocation does: the second call succeeds (no duplicate-key error) and
merely overwrites the key "dppy" with the same factory. -/
theorem registration_idempotent (env : Env) (w : World)
    (ha : (initialize_all env w).1 = Except.ok ())
    (hu : (_initialize_ufunc env w).1 = Except.ok ())
    (hg : (_initialize_gufunc env w).1 = Except.ok ()) :
    ((initialize_all env (initialize_all env w).2).1 = Except.ok () ∧
     (initialize_all env (initialize_all env w).2).2.dispatcher_registry =
       (initialize_all env w).2.dispatcher_registry ∧
     (initialize_all env (initialize_all env w).2).2.vectorize_registry =
       (initialize_all env w).2.vectorize_registry ∧
     (initialize_all env (initialize_all env w).2).2.guvectorize_registry =
       (initialize_all env w).2.guvectorize_registry) ∧
    ((_initialize_ufunc env (_initialize_ufunc env w).2).1 = Except.ok () ∧
     (_initialize_ufunc env (_initialize_ufunc env w).2).2.dispatcher_registry =
       (_initialize_ufunc env w).2.dispatcher_registry ∧
     (_initialize_ufunc env (_initialize_ufunc env w).2).2.vectorize_registry =
       (_initialize_ufunc env w).2.vectorize_registry ∧
     (_initialize_ufunc env (_initialize_ufunc env w).2).2.guvectorize_registry =
       (_initialize_ufunc env w).2.guvectorize_registry) ∧
    ((_initialize_gufunc env (_initialize_gufunc env w).2).1 = Except.ok () ∧
     (_initialize_gufunc env (_initialize_gufunc env w).2).2.dispatcher_registry =
       (_initialize_gufunc env w).2.dispatcher_registry ∧
     (_initialize_gufunc env (_initialize_gufunc env w).2).2.vectorize_registry =
       (_initialize_gufunc env w).2.vectorize_registry ∧
     (_initialize_gufunc env (_initialize_gufunc env w).2).2.guvectorize_registry =
       (_initialize_gufunc env w).2.guvectorize_registry) := by
  by_cases c1 : "numba.targets.registry" ∈ w.imported_modules <;>
  by_cases c2 : env.import_ok "numba.targets.registry" = true <;>
  by_cases c3 : env.lib_ok "libdpglue.so" = true <;>
  by_cases c4 : env.lib_ok "libOpenCL.so" = true <;>
  by_cases c5 : "numba.npyufunc" ∈ w.imported_modules <;>
  by_cases c6 : env.import_ok "numba.npyufunc" = true <;>
    simp_all [initialize_all, _initialize_ufunc, _initialize_gufunc, pyImport,
      load_library_permanently, setKey_setKey]

/-- C6 witness: the statement at the all-succeeding environment and an
empty world. -/
theorem registration_idempotent_witness :
    ((initialize_all envAllOk (initialize_all envAllOk emptyWorld).2).1 =
        Except.ok () ∧
     (initialize_all envAllOk (initialize_all envAllOk emptyWorld).2).2.dispatcher_registry =
       (initialize_all envAllOk emptyWorld).2.dispatcher_registry ∧
     (initialize_all envAllOk (initialize_all envAllOk emptyWorld).2).2.vectorize_registry =
       (initialize_all envAllOk emptyWorld).2.vectorize_registry ∧
     (initialize_all envAllOk (initialize_all envAllOk emptyWorld).2).2.guvectorize_registry =
       (initialize_all envAllOk emptyWorld).2.guvectorize_registry) ∧
    ((_initialize_ufunc envAllOk (_initialize_ufunc envAllOk emptyWorld).2).1 =
        Except.ok () ∧
     (_initialize_ufunc envAllOk (_initialize_ufunc envAllOk emptyWorld).2).2.dispatcher_registry =
       (_initialize_ufunc envAllOk emptyWorld).2.dispatcher_registry ∧
     (_initialize_ufunc envAllOk (_initialize_ufunc envAllOk emptyWorld).2).2.vectorize_registry =
       (_initialize_ufunc envAllOk emptyWorld).2.vectorize_registry ∧
     (_initialize_ufunc envAllOk (_initialize_ufunc envAllOk emptyWorld).2).2.guvectorize_registry =
       (_initialize_ufunc envAllOk emptyWorld).2.guvectorize_registry) ∧
    ((_initialize_gufunc envAllOk (_initialize_gufunc envAllOk emptyWorld).2).1 =
        Except.ok () ∧
     (_initialize_gufunc envAllOk (_initialize_gufunc envAllOk emptyWorld).2).2.dispatcher_registry =
       (_initialize_gufunc envAllOk emptyWorld).2.dispatcher_registry ∧
     (_initialize_gufunc envAllOk (_initialize_gufunc envAllOk emptyWorld).2).2.vectorize_registry =
       (_initialize_gufunc envAllOk emptyWorld).2.vectorize_registry ∧
     (_initialize_gufunc envAllOk (_initialize_gufunc envAllOk emptyWorld).2).2.guvectorize_registry =
       (_initialize_gufunc envAllOk emptyWorld).2.guvectorize_registry) :=
  registration_idempotent envAllOk emptyWorld rfl rfl rfl
